import Mathlib

/-!
Formal verification of the scoring/ranking core of `app.py`, the Seoul
low-cost coffee-brand site-analysis dashboard.

The Python source is shallowly embedded: dataframes become lists of records,
numeric cells become `Option ℚ` where `none` models a pandas `NaN` (a missing
cell), and the pandas / CPython sorting primitives called by the source are
modelled explicitly from their implementations.  Line numbers refer to
`app.py`.
-/

/-- The numeric value of a sort-key cell, defaulting a missing cell to `0`.
The default is only ever reached on rows whose key is present, because
`sort_values` separates the missing-key rows before comparing. -/
def keyD {α : Type} (key : α → Option ℚ) (a : α) : ℚ := (key a).getD 0

/-- Ascending comparison of two rows on a numeric key column; this is the
comparison `numpy.argsort` applies to the non-NaN values inside
`pandas` `sort_values`. -/
def leKey {α : Type} (key : α → Option ℚ) (a b : α) : Prop := keyD key a ≤ keyD key b

instance instDecidableLeKey {α : Type} (key : α → Option ℚ) : DecidableRel (leKey key) :=
  fun a b => inferInstanceAs (Decidable (keyD key a ≤ keyD key b))

instance instIsTotalLeKey {α : Type} (key : α → Option ℚ) : IsTotal α (leKey key) :=
  ⟨fun a b => le_total (keyD key a) (keyD key b)⟩

instance instIsTransLeKey {α : Type} (key : α → Option ℚ) : IsTrans α (leKey key) :=
  ⟨fun _ _ _ hab hbc => le_trans hab hbc⟩

/-- Model of `df.sort_values(column, ascending=..., na_position="last")` on a
single numeric column, following `pandas.core.sorting.nargsort`: the rows
whose key is present are argsorted ascending on the key (for
`ascending=False` pandas reverses the non-NaN rows before the argsort and
reverses the result again afterwards, which is modelled here verbatim), and
the rows whose key is missing (NaN) are appended at the end in their original
order — `na_position="last"`, the pandas default and the value in effect at
every `sort_values` call site of `app.py`.  The argsort itself is modelled as
a stable sort (`List.insertionSort`); pandas' default `kind='quicksort'`
produces the same key order but leaves the relative order of equal keys
implementation-defined, so every theorem proved below about this model is
independent of the order of equal keys. -/
def sort_values {α : Type} (key : α → Option ℚ) (ascending : Bool) (l : List α) : List α :=
  match ascending with
  | true =>
      List.insertionSort (leKey key) (l.filter fun a => (key a).isSome) ++
        l.filter fun a => !(key a).isSome
  | false =>
      (List.insertionSort (leKey key) (l.filter fun a => (key a).isSome).reverse).reverse ++
        l.filter fun a => !(key a).isSome

/-- The order in which `sort_values key ascending` emits its rows: a row with
a missing key never precedes a row with a present key, and present keys are
ordered in the requested direction. -/
def keyOrd {α : Type} (key : α → Option ℚ) (ascending : Bool) (a b : α) : Prop :=
  key b = none ∨ ∃ va vb, key a = some va ∧ key b = some vb ∧
    match ascending with
    | true => va ≤ vb
    | false => vb ≤ va

/-- Descending comparison by a score function; the order realised by Python
`sorted(items, key=score, reverse=True)`. -/
def geScore {α : Type} (score : α → ℚ) (a b : α) : Prop := score b ≤ score a

instance instDecidableGeScore {α : Type} (score : α → ℚ) : DecidableRel (geScore score) :=
  fun a b => inferInstanceAs (Decidable (score b ≤ score a))

instance instIsTotalGeScore {α : Type} (score : α → ℚ) : IsTotal α (geScore score) :=
  ⟨fun a b => le_total (score b) (score a)⟩

instance instIsTransGeScore {α : Type} (score : α → ℚ) : IsTrans α (geScore score) :=
  ⟨fun _ _ _ hab hbc => le_trans hbc hab⟩

/-- Model of CPython `sorted(items, key=score, reverse=True)`: a stable sort,
descending in the key; CPython guarantees that rows with equal keys keep
their original relative order also under `reverse=True`. -/
def py_sorted_desc {α : Type} (score : α → ℚ) (l : List α) : List α :=
  List.insertionSort (geScore score) l

/-- One row of `df_dong` as materialised by `load_data` (lines 40–60): the
per-neighbourhood record with the `brands` mapping split into the `cnt_*`
columns (`brandCnt`) and the detailed-metrics overlay merged in.  Numeric
cells are `Option ℚ`; `none` models a pandas `NaN` (`app.py` itself guards
cells with `pd.notna`, e.g. lines 626–631, and visualises missing
`monthly_sales` source data in its data-consistency matrix). -/
structure DongRow where
  dong_name : String
  dong_code : String
  brandCnt : List (String × ℕ)
  attractiveness_score : Option ℚ
  demand_score : Option ℚ
  competition_score : Option ℚ
  cost_score : Option ℚ
  monthly_sales : Option ℚ
  total_workers : Option ℚ
  cafe_count : Option ℚ
  total_brand_count : Option ℚ
  opportunity_score : Option ℚ
  penetration_rate : Option ℚ
  peak_sales_ratio : Option ℚ
  closure_rate : Option ℚ
deriving DecidableEq, Repr

/-- One row of `df_rec` (`data["recommend_top"]`, line 75): a recommendation
candidate for one (brand, neighbourhood) pair, with the neighbourhood's
metrics denormalised onto the record (spec §3, RecommendationRecord). -/
structure RecRecord where
  brand : String
  dong_name : String
  attractiveness_score : Option ℚ
  demand_score : Option ℚ
  competition_score : Option ℚ
  cost_score : Option ℚ
  total_workers : Option ℚ
  cafe_count : Option ℚ
  monthly_sales : Option ℚ
deriving DecidableEq, Repr

/-- `df_dong[f"cnt_{b}"]` for a single row: the store count of brand `b` in
the neighbourhood, `0` when the row has no column for `b`. -/
def cnt (d : DongRow) (b : String) : ℕ := (d.brandCnt.lookup b).getD 0

/-- `pandas` `Series.mean()` with the default `skipna=True`: the arithmetic
mean of the present values, `NaN` (`none`) when no value is present. -/
def series_mean (xs : List (Option ℚ)) : Option ℚ :=
  if (xs.filterMap id).isEmpty then none
  else some ((xs.filterMap id).sum / (xs.filterMap id).length)

/-- Lines 86–89 of `app.py`: per-brand average attractiveness over the
neighbourhoods where the brand has at least one store, `0` when the brand is
present nowhere —
`dong_with_brand["attractiveness_score"].mean() if not dong_with_brand.empty else 0`. -/
def BRAND_ATTR_MAP (df_dong : List DongRow) (b : String) : Option ℚ :=
  if ((df_dong.filter fun d => decide (0 < cnt d b)).isEmpty) then some 0
  else series_mean ((df_dong.filter fun d => decide (0 < cnt d b)).map
    DongRow.attractiveness_score)

/-- The columns of `df_dong` after `load_data` with the detailed-metrics
overlay present, restricted to the columns `app.py` references; the per-brand
store-count columns are named `cnt_<brand>` (line 59). -/
def df_dong_columns (brands : List String) : List String :=
  ["dong_name", "dong_code", "monthly_sales", "total_workers", "cafe_count",
   "age_10", "age_20", "age_30", "age_40", "age_50", "age_60",
   "attractiveness_score", "demand_score", "competition_score", "cost_score",
   "total_brand_count", "opportunity_score", "penetration_rate",
   "peak_sales_ratio", "weekday_sales_ratio", "avg_op_days", "closure_rate",
   "competition_intensity", "penetration_score", "commercial_index"] ++
  brands.map (fun b => "cnt_" ++ b)

/-- The numeric cell of a `df_dong` row for each sort key the 행정동-분석
sidebar offers (lines 276–288); `none` for any other key, which `df_view`
never reaches because pandas raises `KeyError` first. -/
def dong_key_val (sort_by : String) (d : DongRow) : Option ℚ :=
  if sort_by = "total_brand_count" then d.total_brand_count
  else if sort_by = "attractiveness_score" then d.attractiveness_score
  else if sort_by = "monthly_sales" then d.monthly_sales
  else if sort_by = "opportunity_score" then d.opportunity_score
  else if sort_by = "penetration_rate" then d.penetration_rate
  else if sort_by = "peak_sales_ratio" then DongRow.peak_sales_ratio d
  else if sort_by = "closure_rate" then d.closure_rate
  else none

/-- The sort keys offered by the 행정동-분석 sidebar selectbox
(lines 276–288 of `app.py`). -/
def sort_by_options : List String :=
  ["total_brand_count", "attractiveness_score", "monthly_sales",
   "opportunity_score", "penetration_rate", "peak_sales_ratio", "closure_rate"]

/-- Line 567: the optional exact-match neighbourhood filter
(`df_view[df_view["dong_name"] == dong_search]`; `none` models the 전체
choice). -/
def dong_filtered (df_dong : List DongRow) (dong_search : Option String) : List DongRow :=
  match dong_search with
  | none => df_dong
  | some s => df_dong.filter fun d => d.dong_name == s

/-- Lines 568–571: the optional brand filter.  The source guards on
`if col in df_view.columns:` — when the `cnt_<brand>` column does not exist
the filter is silently skipped. -/
def dong_brand_filtered (brands : List String) (df_dong : List DongRow)
    (brand_filter : Option String) : List DongRow :=
  match brand_filter with
  | none => df_dong
  | some b =>
      if ("cnt_" ++ b) ∈ df_dong_columns brands then
        df_dong.filter fun d => decide (0 < cnt d b)
      else df_dong

/-- Lines 564–577 of `app.py`: the 행정동-분석 query — neighbourhood filter,
brand filter, then
`df_view.sort_values(sort_by, ascending=False, na_position="last")`.
`Except.error` models the `KeyError` pandas raises when the sort column is
absent from the frame.  (Modelled with an empty global brand multiselect, in
which case line 575 does not recompute `total_brand_count`.) -/
def df_view (brands : List String) (df_dong : List DongRow) (dong_search : Option String)
    (brand_filter : Option String) (sort_by : String) : Except String (List DongRow) :=
  if sort_by ∈ df_dong_columns brands then
    Except.ok (sort_values (dong_key_val sort_by) false
      (dong_brand_filtered brands (dong_filtered df_dong dong_search) brand_filter))
  else Except.error sort_by

/-- The three sort keys the 입지-추천 sidebar offers (lines 292–300). -/
inductive RecSortKey
  | attractiveness_score
  | demand_score
  | cost_score
deriving DecidableEq, Repr

/-- The selected recommendation sort column read off a `df_rec` row. -/
def RecSortKey.get : RecSortKey → RecRecord → Option ℚ
  | .attractiveness_score, r => r.attractiveness_score
  | .demand_score, r => r.demand_score
  | .cost_score, r => r.cost_score

/-- Lines 1195–1196: the optional exact-match brand filter
(`df_r[df_r["brand"] == rec_brand]`; `none` models the 전체 choice). -/
def brand_filtered (df_rec : List RecRecord) (rec_brand : Option String) : List RecRecord :=
  match rec_brand with
  | none => df_rec
  | some b => df_rec.filter fun r => r.brand == b

/-- Lines 1194–1198: brand filter followed by the optional neighbourhood
multiselect filter (`df_r[df_r["dong_name"].isin(rec_search)]`; an empty
selection applies no filter). -/
def rec_pool (df_rec : List RecRecord) (rec_brand : Option String)
    (rec_search : List String) : List RecRecord :=
  if rec_search.isEmpty then brand_filtered df_rec rec_brand
  else (brand_filtered df_rec rec_brand).filter fun r => rec_search.contains r.dong_name

/-- Line 1200 of `app.py`:
`df_r = df_r.sort_values(rec_sort, ascending=False).head(1000)`. -/
def df_r (df_rec : List RecRecord) (rec_brand : Option String)
    (rec_search : List String) (rec_sort : RecSortKey) : List RecRecord :=
  (sort_values rec_sort.get false (rec_pool df_rec rec_brand rec_search)).take 1000

/-- Helper for `uniqueFirst`: keep the first occurrence of every value,
skipping values already seen. -/
def uniqueFirstAux (seen : List String) : List String → List String
  | [] => []
  | a :: t => if a ∈ seen then uniqueFirstAux seen t else a :: uniqueFirstAux (a :: seen) t

/-- `pandas` `Series.unique()` (line 1208): the distinct values in order of
first occurrence. -/
def uniqueFirst (l : List String) : List String := uniqueFirstAux [] l

/-- One displayed neighbourhood card of the 입지-추천 tab (lines 1223–1228):
the group's neighbourhood, the group's representative record
(`dong_group.iloc[0]`, whose metrics the card displays), and the candidate
brands with their scores, sorted descending. -/
structure RecGroup where
  dong_name : String
  data : RecRecord
  brands : List String
  scores : List ℚ
deriving DecidableEq, Repr

/-- Lines 1213–1228 of `app.py`: the group built for one neighbourhood —
`dong_group = df_r[df_r["dong_name"] == dong]`, representative record
`dong_group.iloc[0]`, and the brand chips sorted by score descending
(`sorted(..., key=lambda x: x["score"], reverse=True)`).  `none` when the
neighbourhood has no record, which the loop never produces because it only
visits values of `df_r["dong_name"]`. -/
def mk_group (attr : String → ℚ) (recs : List RecRecord) (dong : String) : Option RecGroup :=
  match recs.filter (fun r => r.dong_name == dong) with
  | [] => none
  | r :: rs =>
      some { dong_name := dong, data := r,
             brands := py_sorted_desc attr ((r :: rs).map RecRecord.brand),
             scores := (py_sorted_desc attr ((r :: rs).map RecRecord.brand)).map attr }

/-- Lines 1207–1228 of `app.py`: `unique_dongs = df_r["dong_name"].unique()`
followed by the grouping loop, which breaks once 30 groups are collected
(`if len(grouped_recs) >= 30: break`). -/
def grouped_recs (attr : String → ℚ) (recs : List RecRecord) : List RecGroup :=
  ((uniqueFirst (recs.map RecRecord.dong_name)).take 30).filterMap (mk_group attr recs)

/-- Modelled from the spec: the `recommend_top` table of
`dashboard_data.json` is produced by a preprocessing script that is not part
of `src/` — `app.py` only loads the finished table at line 75.  Spec §3 and
§6: one RecommendationRecord per (brand, neighbourhood) pair where the brand
is NOT present in that neighbourhood ("pre-joined brand×neighbourhood pairs
for brands absent from that neighbourhood"), its metric fields denormalised
from the neighbourhood record. -/
def recommend_top (brands : List String) (df_dong : List DongRow) : List RecRecord :=
  brands.flatMap fun b =>
    (df_dong.filter fun d => decide (cnt d b = 0)).map fun d =>
      { brand := b, dong_name := d.dong_name,
        attractiveness_score := d.attractiveness_score,
        demand_score := d.demand_score,
        competition_score := d.competition_score,
        cost_score := d.cost_score,
        total_workers := d.total_workers,
        cafe_count := d.cafe_count,
        monthly_sales := d.monthly_sales }

/-- The label returned by `get_u_label` for the under-validated bucket (score 1). -/
def label_u1 : String := "1점 (검증부족)"

/-- The label returned by `get_u_label` for the optimal-band bucket (score 4). -/
def label_u4 : String := "4점 (최적구간)"

/-- The label returned by `get_u_label` for the over-saturated bucket (score 2). -/
def label_u2 : String := "2점 (과밀경쟁)"

/-- Lines 1007–1010 of `app.py`: the penetration-rate bucketing
`if rate <= 3 ... elif rate <= 15 ... else ...`. -/
def get_u_label (rate : ℚ) : String :=
  if rate ≤ 3 then label_u1
  else if rate ≤ 15 then label_u4
  else label_u2

/-- The numeric score carried by each `get_u_label` bucket label — the
leading digit, as documented at line 913 of `app.py`
(`0-3%:1점 | 3-15%:4점 | 15%+:2점`). -/
def u_label_score (label : String) : ℕ :=
  if label = label_u1 then 1
  else if label = label_u4 then 4
  else if label = label_u2 then 2
  else 0

/-- Python `str.strip()` on a character list: remove leading and trailing
whitespace. -/
def py_strip (s : List Char) : List Char :=
  ((s.dropWhile Char.isWhitespace).reverse.dropWhile Char.isWhitespace).reverse

/-- The three punctuation characters removed by line 45 of `app.py`: middle
dot, period, bullet. -/
def dropped_punct (c : Char) : Bool := c == '·' || c == '.' || c == '•'

/-- Line 45 of `app.py`:
`row['dong_name'].replace('·', '').replace('.', '').replace('•', '').strip()`. -/
def normalize_dong_name (name : String) : String :=
  String.mk (py_strip (name.data.filter fun c => !dropped_punct c))

/-- Lines 44–46 of `app.py`: the detailed-metrics overlay lookup
`detailed_data.get(name, {}).get(metric, 0)` keyed by the normalised
neighbourhood name. -/
def get_detailed_metric (detailed_data : List (String × List (String × ℚ)))
    (dong_name metric : String) : ℚ :=
  (((detailed_data.lookup (normalize_dong_name dong_name)).getD []).lookup metric).getD 0

/-- Line 369 of `app.py`:
`sorted(ACTIVE_BRANDS, key=sort_key_map[sort_method], reverse=True)[:10]` —
the brand-ranking cards show the top 10 brands of the selected criterion. -/
def top_10_brands (sort_key : String → ℚ) (active_brands : List String) : List String :=
  (py_sorted_desc sort_key active_brands).take 10

/-- Line 1218 of `app.py`: `BRAND_ATTR_MAP.get(b, 0)` — the score attached to
a brand chip of a recommendation card: the brand's average attractiveness
from the aggregator (lines 86–89), `0` for a brand without a map entry (the
map is keyed by `BRANDS`).  `getD 0` also covers the `NaN` mean, which
lines 86–89 can only produce when every score cell of a nonempty footprint
is missing. -/
def brand_attr_get (df_dong : List DongRow) (brands : List String) (b : String) : ℚ :=
  if b ∈ brands then (BRAND_ATTR_MAP df_dong b).getD 0 else 0

/-- Fixture neighbourhood where 메가커피 has two stores. -/
def dong_yeoksam : DongRow :=
  { dong_name := "역삼1동", dong_code := "1168064000",
    brandCnt := [("메가커피", 2), ("빽다방", 0)],
    attractiveness_score := some 70, demand_score := some 60,
    competition_score := some 50, cost_score := some 40,
    monthly_sales := some 250000000, total_workers := some 5000,
    cafe_count := some 80, total_brand_count := some 2,
    opportunity_score := some 2500, penetration_rate := some 5,
    peak_sales_ratio := some 45, closure_rate := some 3 }

/-- Fixture neighbourhood where no tracked brand is present and the
monthly-sales cell is missing. -/
def dong_sinsa : DongRow :=
  { dong_name := "신사동", dong_code := "1168056500",
    brandCnt := [("메가커피", 0), ("빽다방", 0)],
    attractiveness_score := some 30, demand_score := some 20,
    competition_score := some 60, cost_score := some 10,
    monthly_sales := none, total_workers := some 1200,
    cafe_count := some 40, total_brand_count := some 0,
    opportunity_score := some 1200, penetration_rate := some 0,
    peak_sales_ratio := some 30, closure_rate := some 7 }

/-- The recommendation record `recommend_top` generates for 메가커피 in the
fixture neighbourhood 신사동 (where the brand has no store). -/
def rec_sinsa_mega : RecRecord :=
  { brand := "메가커피", dong_name := "신사동",
    attractiveness_score := some 30, demand_score := some 20,
    competition_score := some 60, cost_score := some 10,
    total_workers := some 1200, cafe_count := some 40, monthly_sales := none }

/-- Fixture recommendation row with a missing attractiveness cell. -/
def rec_null_a : RecRecord :=
  { brand := "컴포즈커피", dong_name := "성수동",
    attractiveness_score := none, demand_score := some 10,
    competition_score := none, cost_score := none,
    total_workers := none, cafe_count := none, monthly_sales := none }

/-- Fixture recommendation row with a present attractiveness cell. -/
def rec_present : RecRecord :=
  { brand := "메가커피", dong_name := "합정동",
    attractiveness_score := some 55, demand_score := some 35,
    competition_score := some 45, cost_score := some 25,
    total_workers := some 900, cafe_count := some 25, monthly_sales := some 90000000 }

/-- Second fixture recommendation row with a missing attractiveness cell. -/
def rec_null_b : RecRecord :=
  { brand := "빽다방", dong_name := "망원동",
    attractiveness_score := none, demand_score := some 5,
    competition_score := none, cost_score := none,
    total_workers := none, cafe_count := none, monthly_sales := none }

/-- Grouping fixture: 빽다방 candidate in 성수동, score 90. -/
def rec_g1 : RecRecord :=
  { brand := "빽다방", dong_name := "성수동",
    attractiveness_score := some 90, demand_score := some 80,
    competition_score := some 70, cost_score := some 60,
    total_workers := some 3000, cafe_count := some 50, monthly_sales := some 120000000 }

/-- Grouping fixture: 메가커피 candidate in 성수동, score 70. -/
def rec_g2 : RecRecord :=
  { brand := "메가커피", dong_name := "성수동",
    attractiveness_score := some 70, demand_score := some 80,
    competition_score := some 70, cost_score := some 60,
    total_workers := some 3000, cafe_count := some 50, monthly_sales := some 120000000 }

/-- Grouping fixture: 메가커피 candidate in 망원동, score 80. -/
def rec_g3 : RecRecord :=
  { brand := "메가커피", dong_name := "망원동",
    attractiveness_score := some 80, demand_score := some 40,
    competition_score := some 30, cost_score := some 20,
    total_workers := some 800, cafe_count := some 15, monthly_sales := some 40000000 }

/-- Brand-chip score function used by the grouping witnesses. -/
def wit_attr : String → ℚ := fun b => if b = "메가커피" then 20 else 10

/-- The first display group the grouping fixture produces: 성수동, whose
representative record is `rec_g1` and whose brand chips are sorted by
`wit_attr` descending. -/
def wit_group : RecGroup :=
  { dong_name := "성수동", data := rec_g1,
    brands := ["메가커피", "빽다방"], scores := [20, 10] }

/-- Fixture detailed-metrics overlay. -/
def wit_overlay : List (String × List (String × ℚ)) :=
  [("역삼1동", [("opportunity_score", 5)])]

theorem keyOrd_refl {α : Type} (key : α → Option ℚ) (ascending : Bool) (a : α) :
    keyOrd key ascending a a := by
  cases h : key a with
  | none => exact Or.inl h
  | some v =>
      refine Or.inr ⟨v, v, h, h, ?_⟩
      cases ascending <;> exact le_refl v

theorem sort_values_perm {α : Type} (key : α → Option ℚ) (ascending : Bool) (l : List α) :
    (sort_values key ascending l).Perm l := by
  cases ascending <;> simp only [sort_values] <;>
    refine List.Perm.trans (List.Perm.append_right _ ?_) (List.filter_append_perm _ l)
  · exact (List.reverse_perm _).trans
      ((List.perm_insertionSort _ _).trans (List.reverse_perm _))
  · exact List.perm_insertionSort _ _

theorem mem_sort_values {α : Type} {key : α → Option ℚ} {ascending : Bool} {l : List α}
    {x : α} (h : x ∈ sort_values key ascending l) : x ∈ l :=
  (sort_values_perm key ascending l).mem_iff.mp h

theorem mem_filter_isSome {α : Type} {key : α → Option ℚ} {l : List α} {x : α}
    (h : x ∈ l.filter fun a => (key a).isSome) : ∃ v, key x = some v := by
  have hb := (List.mem_filter.mp h).2
  exact Option.isSome_iff_exists.mp hb

theorem mem_filter_isNone {α : Type} {key : α → Option ℚ} {l : List α} {x : α}
    (h : x ∈ l.filter fun a => !(key a).isSome) : key x = none := by
  have hb := List.of_mem_filter h
  simp only [Bool.not_eq_true'] at hb
  exact Option.not_isSome_iff_eq_none.mp (by simp [hb])

theorem sort_values_pairwise {α : Type} (key : α → Option ℚ) (ascending : Bool)
    (l : List α) : List.Pairwise (keyOrd key ascending) (sort_values key ascending l) := by
  cases ascending <;> simp only [sort_values] <;> rw [List.pairwise_append] <;>
    refine ⟨?_, ?_, ?_⟩
  · have hs : List.Sorted (leKey key) (List.insertionSort (leKey key)
        (l.filter fun a => (key a).isSome).reverse) := List.sorted_insertionSort _ _
    have hrev : List.Pairwise (fun a b => leKey key b a)
        (List.insertionSort (leKey key) (l.filter fun a => (key a).isSome).reverse).reverse :=
      List.pairwise_reverse.mpr hs
    refine hrev.imp_of_mem (fun {a b} ha hb hr => ?_)
    have hma : a ∈ l.filter fun c => (key c).isSome := by
      have := (List.perm_insertionSort (leKey key) _).mem_iff.mp (List.mem_reverse.mp ha)
      exact List.mem_reverse.mp this
    have hmb : b ∈ l.filter fun c => (key c).isSome := by
      have := (List.perm_insertionSort (leKey key) _).mem_iff.mp (List.mem_reverse.mp hb)
      exact List.mem_reverse.mp this
    obtain ⟨va, hva⟩ := mem_filter_isSome hma
    obtain ⟨vb, hvb⟩ := mem_filter_isSome hmb
    refine Or.inr ⟨va, vb, hva, hvb, ?_⟩
    have hle : keyD key b ≤ keyD key a := hr
    simpa [keyD, hva, hvb] using hle
  · exact List.pairwise_of_forall_mem_list
      (fun a _ b hb => Or.inl (mem_filter_isNone hb))
  · exact fun a _ b hb => Or.inl (mem_filter_isNone hb)
  · have hs : List.Sorted (leKey key) (List.insertionSort (leKey key)
        (l.filter fun a => (key a).isSome)) := List.sorted_insertionSort _ _
    refine hs.imp_of_mem (fun {a b} ha hb hr => ?_)
    have hma : a ∈ l.filter fun c => (key c).isSome :=
      (List.perm_insertionSort (leKey key) _).mem_iff.mp ha
    have hmb : b ∈ l.filter fun c => (key c).isSome :=
      (List.perm_insertionSort (leKey key) _).mem_iff.mp hb
    obtain ⟨va, hva⟩ := mem_filter_isSome hma
    obtain ⟨vb, hvb⟩ := mem_filter_isSome hmb
    refine Or.inr ⟨va, vb, hva, hvb, ?_⟩
    have hle : keyD key a ≤ keyD key b := hr
    simpa [keyD, hva, hvb] using hle
  · exact List.pairwise_of_forall_mem_list
      (fun a _ b hb => Or.inl (mem_filter_isNone hb))
  · exact fun a _ b hb => Or.inl (mem_filter_isNone hb)

theorem sort_values_take_drop {α : Type} (key : α → Option ℚ) (ascending : Bool)
    (l : List α) (n : ℕ) :
    ∀ x ∈ (sort_values key ascending l).take n,
      ∀ y ∈ (sort_values key ascending l).drop n, keyOrd key ascending x y := by
  have hp := sort_values_pairwise key ascending l
  rw [← List.take_append_drop n (sort_values key ascending l), List.pairwise_append] at hp
  exact hp.2.2

theorem py_sorted_desc_sorted {α : Type} (score : α → ℚ) (l : List α) :
    List.Sorted (geScore score) (py_sorted_desc score l) :=
  List.sorted_insertionSort _ l

theorem py_sorted_desc_perm {α : Type} (score : α → ℚ) (l : List α) :
    (py_sorted_desc score l).Perm l :=
  List.perm_insertionSort _ l

theorem mem_uniqueFirstAux (seen : List String) (l : List String) (x : String) :
    x ∈ uniqueFirstAux seen l ↔ x ∈ l ∧ x ∉ seen := by
  induction l generalizing seen with
  | nil => simp [uniqueFirstAux]
  | cons a t ih =>
      by_cases ha : a ∈ seen
      · rw [uniqueFirstAux, if_pos ha, ih]
        constructor
        · exact fun ⟨h1, h2⟩ => ⟨List.mem_cons_of_mem _ h1, h2⟩
        · rintro ⟨h1, h2⟩
          rcases List.mem_cons.mp h1 with rfl | h1
          · exact absurd ha h2
          · exact ⟨h1, h2⟩
      · rw [uniqueFirstAux, if_neg ha]
        constructor
        · intro h
          rcases List.mem_cons.mp h with rfl | h
          · exact ⟨List.mem_cons_self _ _, ha⟩
          · obtain ⟨h1, h2⟩ := (ih (a :: seen)).mp h
            refine ⟨List.mem_cons_of_mem _ h1, fun hx => h2 (List.mem_cons_of_mem _ hx)⟩
        · rintro ⟨h1, h2⟩
          rcases List.mem_cons.mp h1 with rfl | h1
          · exact List.mem_cons_self _ _
          · by_cases hxa : x = a
            · exact hxa ▸ List.mem_cons_self _ _
            · exact List.mem_cons_of_mem _ ((ih (a :: seen)).mpr
                ⟨h1, fun hx => (List.mem_cons.mp hx).elim hxa h2⟩)

theorem mem_uniqueFirst (l : List String) (x : String) :
    x ∈ uniqueFirst l ↔ x ∈ l := by
  rw [uniqueFirst, mem_uniqueFirstAux]
  simp

theorem uniqueFirstAux_nodup (seen : List String) (l : List String) :
    (uniqueFirstAux seen l).Nodup := by
  induction l generalizing seen with
  | nil => exact List.nodup_nil
  | cons a t ih =>
      by_cases ha : a ∈ seen
      · rw [uniqueFirstAux, if_pos ha]; exact ih seen
      · rw [uniqueFirstAux, if_neg ha]
        refine List.nodup_cons.mpr ⟨fun hmem => ?_, ih (a :: seen)⟩
        exact ((mem_uniqueFirstAux _ _ _).mp hmem).2 (List.mem_cons_self _ _)

theorem uniqueFirst_nodup (l : List String) : (uniqueFirst l).Nodup :=
  uniqueFirstAux_nodup [] l

theorem mk_group_spec {attr : String → ℚ} {recs : List RecRecord} {dong : String}
    {g : RecGroup} (h : mk_group attr recs dong = some g) :
    g.dong_name = dong ∧
    ∃ rs, recs.filter (fun r => r.dong_name == dong) = g.data :: rs ∧
      g.brands = py_sorted_desc attr ((g.data :: rs).map RecRecord.brand) ∧
      g.scores = g.brands.map attr := by
  rcases hf : recs.filter (fun r => r.dong_name == dong) with _ | ⟨r, rs⟩ <;>
    rw [mk_group, hf] at h
  · exact absurd h (by simp)
  · obtain rfl := (Option.some.inj h).symm
    exact ⟨rfl, rs, hf, rfl, rfl⟩

theorem mk_group_dong_name {attr : String → ℚ} {recs : List RecRecord} {dong : String}
    {g : RecGroup} (h : mk_group attr recs dong = some g) : g.dong_name = dong :=
  (mk_group_spec h).1

theorem grouped_names_sublist (attr : String → ℚ) (recs : List RecRecord)
    (ds : List String) :
    List.Sublist ((ds.filterMap (mk_group attr recs)).map RecGroup.dong_name) ds := by
  induction ds with
  | nil => simp
  | cons d t ih =>
      cases hg : mk_group attr recs d with
      | none =>
          rw [List.filterMap_cons, hg]
          exact ih.cons d
      | some g =>
          rw [List.filterMap_cons, hg, List.map_cons, mk_group_dong_name hg]
          exact ih.cons₂ d

theorem get_u_label_cases (rate : ℚ) :
    (rate ≤ 3 ∧ get_u_label rate = label_u1) ∨
    (3 < rate ∧ rate ≤ 15 ∧ get_u_label rate = label_u4) ∨
    (15 < rate ∧ get_u_label rate = label_u2) := by
  unfold get_u_label
  split_ifs with h1 h2
  · exact Or.inl ⟨h1, rfl⟩
  · exact Or.inr (Or.inl ⟨lt_of_not_le h1, h2, rfl⟩)
  · exact Or.inr (Or.inr ⟨lt_of_not_le h2, rfl⟩)

/-- Claim C1: the penetration bucketing maps every rate to exactly one of the
three labels carrying the scores 1, 4 and 2: a rate ≤ 3 scores 1, a rate in
(3, 15] scores 4 and a rate > 15 scores 2 — in particular exactly 3.0 scores
1 and exactly 15.0 scores 4. -/
theorem C1_penetration_bucketing (rate : ℚ) :
    (get_u_label rate = label_u1 ∨ get_u_label rate = label_u4 ∨ get_u_label rate = label_u2)
    ∧ (u_label_score (get_u_label rate) = 1 ↔ rate ≤ 3)
    ∧ (u_label_score (get_u_label rate) = 4 ↔ 3 < rate ∧ rate ≤ 15)
    ∧ (u_label_score (get_u_label rate) = 2 ↔ 15 < rate)
    ∧ u_label_score (get_u_label 3) = 1 ∧ u_label_score (get_u_label 15) = 4 := by
  have s1 : u_label_score label_u1 = 1 := by decide
  have s4 : u_label_score label_u4 = 4 := by decide
  have s2 : u_label_score label_u2 = 2 := by decide
  rcases get_u_label_cases rate with ⟨h, he⟩ | ⟨h, h', he⟩ | ⟨h, he⟩ <;> rw [he]
  · refine ⟨Or.inl rfl, ?_, ?_, ?_, by decide, by decide⟩
    · rw [s1]; exact iff_of_true rfl h
    · rw [s1]
      refine iff_of_false (by decide) ?_
      rintro ⟨h3, _⟩
      exact absurd h (not_le.mpr h3)
    · rw [s1]
      exact iff_of_false (by decide) (not_lt.mpr (h.trans (by norm_num)))
  · refine ⟨Or.inr (Or.inl rfl), ?_, ?_, ?_, by decide, by decide⟩
    · rw [s4]
      exact iff_of_false (by decide) (fun hc => absurd h (not_lt.mpr hc))
    · rw [s4]; exact iff_of_true rfl ⟨h, h'⟩
    · rw [s4]
      exact iff_of_false (by decide) (not_lt.mpr h')
  · refine ⟨Or.inr (Or.inr rfl), ?_, ?_, ?_, by decide, by decide⟩
    · rw [s2]
      exact iff_of_false (by decide)
        (fun hc => absurd hc (not_le.mpr ((by norm_num : (3 : ℚ) < 15).trans h)))
    · rw [s2]
      exact iff_of_false (by decide) (fun hc => absurd hc.2 (not_le.mpr h))
    · rw [s2]; exact iff_of_true rfl h

theorem filterMap_id_all_isSome (xs : List (Option ℚ)) (h : ∀ x ∈ xs, x.isSome = true) :
    xs.filterMap id = xs.map fun x => x.getD 0 := by
  induction xs with
  | nil => rfl
  | cons a t ih =>
      obtain ⟨v, hv⟩ := Option.isSome_iff_exists.mp (h a (List.mem_cons_self a t))
      subst hv
      simp [ih fun x hx => h x (List.mem_cons_of_mem _ hx)]

/-- Claim C4: the per-brand average attractiveness (lines 86–89) is the
arithmetic mean of the attractiveness scores over exactly the neighbourhoods
where the brand has at least one store, and is 0 when the brand is present
nowhere — with no exception and no division by zero (the empty footprint is
guarded before the mean is taken). -/
theorem C4_brand_avg_attractiveness (df_dong : List DongRow) (b : String) :
    ((∀ d ∈ df_dong, cnt d b = 0) → BRAND_ATTR_MAP df_dong b = some 0)
    ∧ ((df_dong.filter fun d => decide (0 < cnt d b)) ≠ [] →
        (∀ d ∈ df_dong.filter fun d => decide (0 < cnt d b),
          (d.attractiveness_score).isSome = true) →
        BRAND_ATTR_MAP df_dong b = some
          ((((df_dong.filter fun d => decide (0 < cnt d b)).map fun d =>
              (d.attractiveness_score).getD 0).sum) /
            ((df_dong.filter fun d => decide (0 < cnt d b)).length))) := by
  constructor
  · intro h
    have hfil : (df_dong.filter fun d => decide (0 < cnt d b)) = [] := by
      rw [List.filter_eq_nil_iff]
      intro d hd
      simp [h d hd]
    unfold BRAND_ATTR_MAP
    rw [hfil]
    rfl
  · intro hne hsome
    have hcond : ¬(((df_dong.filter fun d => decide (0 < cnt d b)).isEmpty) = true) := by
      simp [List.isEmpty_iff, hne]
    have hmap : ((df_dong.filter fun d => decide (0 < cnt d b)).map
        DongRow.attractiveness_score).filterMap id =
        ((df_dong.filter fun d => decide (0 < cnt d b)).map
          DongRow.attractiveness_score).map fun x => x.getD 0 := by
      refine filterMap_id_all_isSome _ ?_
      intro x hx
      obtain ⟨d, hd, rfl⟩ := List.mem_map.mp hx
      exact hsome d hd
    have hcond2 : ¬((((df_dong.filter fun d => decide (0 < cnt d b)).map
        DongRow.attractiveness_score).filterMap id).isEmpty = true) := by
      rw [hmap]
      simp [List.isEmpty_iff, List.map_eq_nil_iff, hne]
    unfold BRAND_ATTR_MAP series_mean
    rw [if_neg hcond, if_neg hcond2, hmap]
    simp only [List.map_map, List.length_map]
    rfl

/-- Witness for C4 on the two-neighbourhood fixture: 빽다방 is present
nowhere, so its average is 0; 메가커피 is present exactly in 역삼1동, so its
average is that neighbourhood's score 70. -/
theorem C4_brand_avg_attractiveness_witness :
    BRAND_ATTR_MAP [dong_yeoksam, dong_sinsa] "빽다방" = some 0 ∧
    BRAND_ATTR_MAP [dong_yeoksam, dong_sinsa] "메가커피" = some 70 := by
  constructor
  · exact (C4_brand_avg_attractiveness [dong_yeoksam, dong_sinsa] "빽다방").1 (by decide)
  · have h := (C4_brand_avg_attractiveness [dong_yeoksam, dong_sinsa] "메가커피").2
      (by decide) (by decide)
    rw [h]
    norm_num [dong_yeoksam, dong_sinsa, cnt, List.lookup]

/-- Claim C8: the detailed-metrics lookup (lines 44–46) first removes the
middle-dot, period and bullet characters from the neighbourhood name (the
normalised name contains none of them), then looks the normalised name up in
the overlay, returning 0 whenever the name or the metric is absent and the
stored value otherwise; being a total function it never raises. -/
theorem C8_detailed_metric_lookup (detailed_data : List (String × List (String × ℚ)))
    (dong_name metric : String) :
    (∀ c ∈ (normalize_dong_name dong_name).data, c ≠ '·' ∧ c ≠ '.' ∧ c ≠ '•')
    ∧ (detailed_data.lookup (normalize_dong_name dong_name) = none →
        get_detailed_metric detailed_data dong_name metric = 0)
    ∧ (∀ entry, detailed_data.lookup (normalize_dong_name dong_name) = some entry →
        entry.lookup metric = none → get_detailed_metric detailed_data dong_name metric = 0)
    ∧ (∀ entry v, detailed_data.lookup (normalize_dong_name dong_name) = some entry →
        entry.lookup metric = some v → get_detailed_metric detailed_data dong_name metric = v) := by
  refine ⟨?_, ?_, ?_, ?_⟩
  · intro c hc
    have h1 : c ∈ py_strip (dong_name.data.filter fun x => !dropped_punct x) := hc
    have h2 : c ∈ dong_name.data.filter fun x => !dropped_punct x := by
      have h3 := List.mem_reverse.mp h1
      have h4 := (List.dropWhile_sublist _).subset h3
      have h5 := List.mem_reverse.mp h4
      exact (List.dropWhile_sublist _).subset h5
    have h6 := List.of_mem_filter h2
    refine ⟨fun hc' => ?_, fun hc' => ?_, fun hc' => ?_⟩ <;> subst hc' <;>
      exact absurd h6 (by decide)
  · intro h
    unfold get_detailed_metric
    rw [h]
    rfl
  · intro entry h hm
    unfold get_detailed_metric
    rw [h]
    simp [hm]
  · intro entry v h hm
    unfold get_detailed_metric
    rw [h]
    simp [hm]

/-- Witness for C8 on the fixture overlay: a name with a middle dot resolves
to its stored value after normalisation, an unknown name defaults to 0, and a
known name with an unknown metric defaults to 0. -/
theorem C8_detailed_metric_lookup_witness :
    get_detailed_metric wit_overlay "역삼1동·" "opportunity_score" = 5 ∧
    get_detailed_metric wit_overlay "면목본동" "opportunity_score" = 0 ∧
    get_detailed_metric wit_overlay "역삼1동." "closure_rate" = 0 := by
  refine ⟨(C8_detailed_metric_lookup wit_overlay "역삼1동·" "opportunity_score").2.2.2
            [("opportunity_score", 5)] 5 (by decide) (by decide),
          (C8_detailed_metric_lookup wit_overlay "면목본동" "opportunity_score").2.1
            (by decide),
          (C8_detailed_metric_lookup wit_overlay "역삼1동." "closure_rate").2.2.1
            [("opportunity_score", 5)] (by decide) (by decide)⟩

/-- Claim C2: for every brand `b`, the brand-filtered recommendation query
(lines 1194–1200) never returns a record for a neighbourhood where `b`
already has at least one store.  The recommendation universe is
spec-modelled (see `recommend_top`): it contains only (brand, neighbourhood)
pairs with a zero store count, and the query only filters, sorts and
truncates it — so the exclusion holds for every input neighbourhood list,
as an enforced property of the pipeline rather than an assumption on the
data. -/
theorem C2_recommendation_excludes_present_brand (brands : List String)
    (df_dong : List DongRow) (b : String) (rec_search : List String)
    (rec_sort : RecSortKey)
    (hnames : (df_dong.map DongRow.dong_name).Nodup) :
    ∀ r ∈ df_r (recommend_top brands df_dong) (some b) rec_search rec_sort,
      r.brand = b ∧ ∀ d ∈ df_dong, d.dong_name = r.dong_name → cnt d b = 0 := by
  intro r hr
  have h1 : r ∈ sort_values rec_sort.get false
      (rec_pool (recommend_top brands df_dong) (some b) rec_search) :=
    List.mem_of_mem_take hr
  have h2 : r ∈ rec_pool (recommend_top brands df_dong) (some b) rec_search :=
    (sort_values_perm _ _ _).mem_iff.mp h1
  have h3 : r ∈ brand_filtered (recommend_top brands df_dong) (some b) := by
    unfold rec_pool at h2
    split at h2
    · exact h2
    · exact (List.mem_filter.mp h2).1
  unfold brand_filtered at h3
  obtain ⟨h4, h5⟩ := List.mem_filter.mp h3
  have hb : r.brand = b := by simpa using h5
  obtain ⟨b', _hb', hrr⟩ := List.mem_flatMap.mp h4
  obtain ⟨d, hd, rfl⟩ := List.mem_map.mp hrr
  obtain ⟨hd0, hcnt⟩ := List.mem_filter.mp hd
  have hcnt0 : cnt d b' = 0 := by simpa using hcnt
  refine ⟨hb, ?_⟩
  intro d' hd' hname
  have hdd : d' = d := List.inj_on_of_nodup_map hnames hd' hd0 hname
  rw [hdd]
  have hbb : b' = b := hb
  rw [← hbb]
  exact hcnt0

/-- Witness for C2 on the two-neighbourhood fixture: the query for 메가커피
returns exactly the 신사동 candidate, and applying the theorem to it shows
메가커피 has zero stores in 신사동. -/
theorem C2_recommendation_excludes_present_brand_witness :
    cnt dong_sinsa "메가커피" = 0 :=
  (C2_recommendation_excludes_present_brand ["메가커피", "빽다방"]
      [dong_yeoksam, dong_sinsa] "메가커피" [] RecSortKey.attractiveness_score
      (by decide) rec_sinsa_mega (by decide)).2 dong_sinsa (by decide) (by decide)

/-- Claim C6: in every sort over neighbourhoods or recommendations (the
`sort_values` calls at lines 577 and 1200 and every other call site use
`na_position="last"`, explicitly or by default), rows whose sort-key cell is
missing are placed after every row with a present value, for both the
ascending and the descending direction: whatever follows a missing-key row
in the output also has a missing key. -/
theorem C6_nulls_sorted_last {α : Type} (key : α → Option ℚ) (ascending : Bool)
    (l : List α) (x y : α)
    (hsub : List.Sublist [x, y] (sort_values key ascending l))
    (hx : key x = none) : key y = none := by
  have hp := sort_values_pairwise key ascending l
  have hxy := List.pairwise_iff_forall_sublist.mp hp hsub
  rcases hxy with h | ⟨va, vb, hva, hvb, _⟩
  · exact h
  · rw [hx] at hva
    exact Option.noConfusion hva

/-- Witness for C6 on a three-row fixture with two missing-score rows: in the
descending output the null rows trail, and the theorem applied to the
sublist of the two trailing rows yields that the second one is null. -/
theorem C6_nulls_sorted_last_witness :
    RecSortKey.attractiveness_score.get rec_null_b = none :=
  C6_nulls_sorted_last RecSortKey.attractiveness_score.get false
    [rec_null_a, rec_present, rec_null_b] rec_null_a rec_null_b
    (by decide) (by decide)

/-- Claim C5: top-N truncation happens strictly after the full sort, never
before.  The recommendation query (line 1200) is literally the first 1000
rows of the fully sorted pool, the brand ranking (line 369) is literally the
first 10 entries of the fully sorted brand list, and — for every bound `n` —
every kept row ranks at least as high as every discarded row. -/
theorem C5_truncate_after_sort (df_rec : List RecRecord) (rec_brand : Option String)
    (rec_search : List String) (rec_sort : RecSortKey) (n : ℕ)
    (sort_key : String → ℚ) (active_brands : List String) :
    df_r df_rec rec_brand rec_search rec_sort =
      (sort_values rec_sort.get false (rec_pool df_rec rec_brand rec_search)).take 1000
    ∧ (∀ x ∈ (sort_values rec_sort.get false (rec_pool df_rec rec_brand rec_search)).take n,
        ∀ y ∈ (sort_values rec_sort.get false (rec_pool df_rec rec_brand rec_search)).drop n,
          keyOrd rec_sort.get false x y)
    ∧ top_10_brands sort_key active_brands = (py_sorted_desc sort_key active_brands).take 10
    ∧ (∀ x ∈ top_10_brands sort_key active_brands,
        ∀ y ∈ (py_sorted_desc sort_key active_brands).drop 10, sort_key y ≤ sort_key x) := by
  refine ⟨rfl, sort_values_take_drop _ _ _ n, rfl, ?_⟩
  have hp : List.Pairwise (geScore sort_key) (py_sorted_desc sort_key active_brands) :=
    py_sorted_desc_sorted _ _
  rw [← List.take_append_drop 10 (py_sorted_desc sort_key active_brands),
    List.pairwise_append] at hp
  intro x hx y hy
  exact hp.2.2 x hx y hy

/-- Witness for C5 on a two-row fixture with `n = 1`: the kept top row
dominates the dropped row in the descending key order. -/
theorem C5_truncate_after_sort_witness :
    keyOrd RecSortKey.attractiveness_score.get false rec_present rec_null_a :=
  (C5_truncate_after_sort [rec_null_a, rec_present] none []
      RecSortKey.attractiveness_score 1 (fun _ => 0) []).2.1
    rec_present (by decide) rec_null_a (by decide)

/-- Counterexample to claim C9 as stated: the brand FILTER key
`cnt_컴포즈커피` is not among the recognised columns, yet the query at lines
568–571 succeeds and silently skips the filter (returning exactly the
unfiltered result) instead of rejecting with an error — the source guards
the filter with `if col in df_view.columns:`. -/
theorem C9_unknown_filter_key_counterexample :
    ((df_dong_columns ["메가커피"]).contains "cnt_컴포즈커피") = false ∧
    df_view ["메가커피"] [dong_yeoksam, dong_sinsa] none (some "컴포즈커피")
        "attractiveness_score" =
      df_view ["메가커피"] [dong_yeoksam, dong_sinsa] none none "attractiveness_score" ∧
    df_view ["메가커피"] [dong_yeoksam, dong_sinsa] none (some "컴포즈커피")
        "attractiveness_score" = Except.ok [dong_yeoksam, dong_sinsa] := by
  refine ⟨by decide, rfl, rfl⟩

/-- Claim C9 (amended): an unrecognised SORT key is rejected with an explicit
error (the pandas `KeyError`), never a silent no-op sort, and every sort key
of the sidebar enumeration succeeds; an unrecognised brand FILTER key,
however, is silently skipped — the query behaves exactly as with no brand
filter — rather than rejected. -/
theorem C9_unknown_sort_key_rejected (brands : List String) (df_dong : List DongRow)
    (dong_search : Option String) (brand_filter : Option String) (sort_by b : String) :
    (sort_by ∉ df_dong_columns brands →
      df_view brands df_dong dong_search brand_filter sort_by = Except.error sort_by)
    ∧ (sort_by ∈ sort_by_options →
      ∃ out, df_view brands df_dong dong_search brand_filter sort_by = Except.ok out)
    ∧ (("cnt_" ++ b) ∉ df_dong_columns brands →
      df_view brands df_dong dong_search (some b) sort_by =
        df_view brands df_dong dong_search none sort_by) := by
  refine ⟨fun h => ?_, fun h => ?_, fun h => ?_⟩
  · rw [df_view, if_neg h]
  · have hmem : sort_by ∈ df_dong_columns brands := by
      fin_cases h <;> exact List.mem_append_left _ (by decide)
    rw [df_view, if_pos hmem]
    exact ⟨_, rfl⟩
  · have heq : dong_brand_filtered brands (dong_filtered df_dong dong_search) (some b) =
        dong_brand_filtered brands (dong_filtered df_dong dong_search) none := by
      simp only [dong_brand_filtered, if_neg h]
    rw [df_view, df_view, heq]

/-- Witness for the amended C9: an unrecognised sort key errors, a
recognised one succeeds, and an unrecognised brand filter is a no-op. -/
theorem C9_unknown_sort_key_rejected_witness :
    df_view ["메가커피"] [dong_yeoksam, dong_sinsa] none none "없는지표" =
      Except.error "없는지표" ∧
    (∃ out, df_view ["메가커피"] [dong_yeoksam, dong_sinsa] none none "monthly_sales" =
      Except.ok out) ∧
    df_view ["메가커피"] [dong_yeoksam, dong_sinsa] none (some "이디야") "monthly_sales" =
      df_view ["메가커피"] [dong_yeoksam, dong_sinsa] none none "monthly_sales" := by
  refine ⟨(C9_unknown_sort_key_rejected ["메가커피"] [dong_yeoksam, dong_sinsa]
            none none "없는지표" "이디야").1 (by decide),
          (C9_unknown_sort_key_rejected ["메가커피"] [dong_yeoksam, dong_sinsa]
            none none "monthly_sales" "이디야").2.1 (by decide),
          (C9_unknown_sort_key_rejected ["메가커피"] [dong_yeoksam, dong_sinsa]
            none none "monthly_sales" "이디야").2.2 (by decide)⟩

theorem grouped_recs_nodup (attr : String → ℚ) (recs : List RecRecord) :
    ((grouped_recs attr recs).map RecGroup.dong_name).Nodup :=
  List.Nodup.sublist (grouped_names_sublist attr recs _)
    (List.Nodup.sublist (List.take_sublist 30 _)
      (uniqueFirst_nodup (recs.map RecRecord.dong_name)))

theorem grouped_recs_mem_spec (attr : String → ℚ) (recs : List RecRecord) (g : RecGroup)
    (hg : g ∈ grouped_recs attr recs) :
    List.Sorted (geScore attr) g.brands
    ∧ (g.brands).Perm
        ((recs.filter fun r => r.dong_name == g.dong_name).map RecRecord.brand)
    ∧ g.dong_name ∈ recs.map RecRecord.dong_name
    ∧ g.scores = g.brands.map attr := by
  obtain ⟨dong, hdong, hmk⟩ := List.mem_filterMap.mp hg
  obtain ⟨hname, rs, hf, hbr, hsc⟩ := mk_group_spec hmk
  subst hname
  refine ⟨?_, ?_, ?_, hsc⟩
  · rw [hbr]
    exact py_sorted_desc_sorted _ _
  · rw [hbr, hf]
    exact py_sorted_desc_perm _ _
  · exact (mem_uniqueFirst _ _).mp (List.mem_of_mem_take hdong)

theorem grouped_recs_complete (attr : String → ℚ) (recs : List RecRecord)
    (h30 : (uniqueFirst (recs.map RecRecord.dong_name)).length ≤ 30)
    (dong : String) (hdong : dong ∈ recs.map RecRecord.dong_name) :
    ∃ g ∈ grouped_recs attr recs, g.dong_name = dong := by
  obtain ⟨r, hr, hrname⟩ := List.mem_map.mp hdong
  have hfmem : r ∈ recs.filter (fun x => x.dong_name == dong) :=
    List.mem_filter.mpr ⟨hr, by simp [hrname]⟩
  rcases hf : recs.filter (fun x => x.dong_name == dong) with _ | ⟨r0, rs⟩
  · rw [hf] at hfmem
    cases hfmem
  · have hmk : mk_group attr recs dong = some
        ⟨dong, r0, py_sorted_desc attr ((r0 :: rs).map RecRecord.brand),
          (py_sorted_desc attr ((r0 :: rs).map RecRecord.brand)).map attr⟩ := by
      unfold mk_group
      rw [hf]
    refine ⟨_, List.mem_filterMap.mpr ⟨dong, ?_, hmk⟩, rfl⟩
    rw [List.take_of_length_le h30]
    exact (mem_uniqueFirst _ _).mpr hdong

/-- Claim C7: grouping recommendations for the multi-brand display
(lines 1207–1228): the surfaced neighbourhood groups are pairwise distinct
(a neighbourhood surfaces at most once), each group's neighbourhood comes
from the grouped records, within each group the candidate brands are exactly
the brands of that neighbourhood's records ordered descending by each
brand's own average attractiveness from the brand aggregator
(`BRAND_ATTR_MAP.get(b, 0)`, modelled by `brand_attr_get`), and whenever the
records span at most 30 distinct neighbourhoods every one of them surfaces
exactly once. -/
theorem C7_multi_brand_grouping (df_dong : List DongRow) (brands : List String)
    (recs : List RecRecord) :
    ((grouped_recs (brand_attr_get df_dong brands) recs).map RecGroup.dong_name).Nodup
    ∧ (∀ g ∈ grouped_recs (brand_attr_get df_dong brands) recs,
        List.Sorted (geScore (brand_attr_get df_dong brands)) g.brands
        ∧ (g.brands).Perm
            ((recs.filter fun r => r.dong_name == g.dong_name).map RecRecord.brand)
        ∧ g.dong_name ∈ recs.map RecRecord.dong_name
        ∧ g.scores = g.brands.map (brand_attr_get df_dong brands))
    ∧ ((uniqueFirst (recs.map RecRecord.dong_name)).length ≤ 30 →
        ∀ dong ∈ recs.map RecRecord.dong_name,
          ∃ g ∈ grouped_recs (brand_attr_get df_dong brands) recs, g.dong_name = dong) :=
  ⟨grouped_recs_nodup _ _,
   fun g hg => grouped_recs_mem_spec _ _ g hg,
   fun h30 dong hdong => grouped_recs_complete _ _ h30 dong hdong⟩

/-- Witness for C7 on the grouping fixture: with the aggregator scores of
the two-neighbourhood fixture (메가커피 ↦ 70, 빽다방 ↦ 0), both fixture
neighbourhoods surface, and in the 성수동 group the 메가커피 chip precedes
the 빽다방 chip. -/
theorem C7_multi_brand_grouping_witness :
    ∃ g ∈ grouped_recs (brand_attr_get [dong_yeoksam, dong_sinsa] ["메가커피", "빽다방"])
      [rec_g1, rec_g2, rec_g3], g.dong_name = "성수동" :=
  (C7_multi_brand_grouping [dong_yeoksam, dong_sinsa] ["메가커피", "빽다방"]
      [rec_g1, rec_g2, rec_g3]).2.2 (by decide) "성수동" (by decide)

/-- Claim C10: for every brand filter, neighbourhood filter and sort key, the
grouped recommendation output (lines 1199–1228) has at most 30 neighbourhood
groups; the candidate pool is first cut to the 1000 rows ranking highest on
the sort key (every kept row dominates every dropped row in the descending
null-last order); and each group's displayed metrics come from the group's
single highest-ranked record — the group's `data` row belongs to the
truncated pool, carries the group's neighbourhood, and dominates every row
of that neighbourhood in the pool. -/
theorem C10_grouped_display_caps (df_rec : List RecRecord) (rec_brand : Option String)
    (rec_search : List String) (rec_sort : RecSortKey) (attr : String → ℚ) :
    (grouped_recs attr (df_r df_rec rec_brand rec_search rec_sort)).length ≤ 30
    ∧ df_r df_rec rec_brand rec_search rec_sort =
        (sort_values rec_sort.get false (rec_pool df_rec rec_brand rec_search)).take 1000
    ∧ (∀ x ∈ df_r df_rec rec_brand rec_search rec_sort,
        ∀ y ∈ (sort_values rec_sort.get false (rec_pool df_rec rec_brand rec_search)).drop 1000,
          keyOrd rec_sort.get false x y)
    ∧ (∀ g ∈ grouped_recs attr (df_r df_rec rec_brand rec_search rec_sort),
        g.data ∈ df_r df_rec rec_brand rec_search rec_sort
        ∧ g.data.dong_name = g.dong_name
        ∧ ∀ s ∈ df_r df_rec rec_brand rec_search rec_sort,
            s.dong_name = g.dong_name → keyOrd rec_sort.get false g.data s) := by
  refine ⟨?_, rfl, ?_, ?_⟩
  · calc (grouped_recs attr (df_r df_rec rec_brand rec_search rec_sort)).length
        ≤ ((uniqueFirst ((df_r df_rec rec_brand rec_search rec_sort).map
            RecRecord.dong_name)).take 30).length := List.length_filterMap_le _ _
      _ ≤ 30 := by
          rw [List.length_take]
          exact min_le_left _ _
  · exact fun x hx y hy => sort_values_take_drop _ _ _ 1000 x hx y hy
  · intro g hg
    obtain ⟨dong, _hdong, hmk⟩ := List.mem_filterMap.mp hg
    obtain ⟨hname, rs, hf, _, _⟩ := mk_group_spec hmk
    have hpw : List.Pairwise (keyOrd rec_sort.get false)
        (df_r df_rec rec_brand rec_search rec_sort) :=
      List.Pairwise.sublist (List.take_sublist _ _) (sort_values_pairwise _ _ _)
    have hdata : g.data ∈ (df_r df_rec rec_brand rec_search rec_sort).filter
        (fun r => r.dong_name == dong) := by
      rw [hf]
      exact List.mem_cons_self _ _
    refine ⟨(List.mem_filter.mp hdata).1, ?_, ?_⟩
    · have hbeq := (List.mem_filter.mp hdata).2
      rw [hname]
      simpa using hbeq
    · intro s hs hsname
      have hsf : s ∈ (df_r df_rec rec_brand rec_search rec_sort).filter
          (fun r => r.dong_name == dong) := by
        refine List.mem_filter.mpr ⟨hs, ?_⟩
        rw [hname] at hsname
        simp [hsname]
      have hpwf : List.Pairwise (keyOrd rec_sort.get false)
          ((df_r df_rec rec_brand rec_search rec_sort).filter
            (fun r => r.dong_name == dong)) :=
        List.Pairwise.sublist (List.filter_sublist _) hpw
      rw [hf] at hpwf hsf
      rcases List.mem_cons.mp hsf with rfl | hrs
      · exact keyOrd_refl _ _ _
      · exact List.rel_of_pairwise_cons hpwf hrs

/-- Witness for C10 on the grouping fixture: the grouped output respects the
30-group cap, and the 성수동 group's representative record is the fixture's
top-ranked 성수동 row. -/
theorem C10_grouped_display_caps_witness :
    (grouped_recs wit_attr
      (df_r [rec_g1, rec_g2, rec_g3] none [] RecSortKey.attractiveness_score)).length ≤ 30
    ∧ wit_group.data ∈ df_r [rec_g1, rec_g2, rec_g3] none [] RecSortKey.attractiveness_score :=
  ⟨(C10_grouped_display_caps [rec_g1, rec_g2, rec_g3] none []
      RecSortKey.attractiveness_score wit_attr).1,
   ((C10_grouped_display_caps [rec_g1, rec_g2, rec_g3] none []
      RecSortKey.attractiveness_score wit_attr).2.2.2 wit_group (by decide)).1⟩
